import Mathlib

/-!
Shallow embedding of the `peakdet` workflow drivers: `peakdet/cli/run.py`
(function `workflow`) and `peakdet/workflow.py` (function `peakdet`).

Signal-processing collaborators (loader, filter, detector, editor, HRV,
history store) live outside these two files; they are modelled as opaque
oracle parameters that may raise.  Python exceptions are modelled with
`Except` / `Option PdError`; Python floats are modelled as rationals, and
Python string operations are re-implemented structurally so that every
definition evaluates inside the kernel.
-/

/-- Python exceptions that the modelled code paths can raise. -/
inductive PdError
  | ioError (msg : String)
  | keyError (key : String)
  | nameError (nm : String)
  | typeError (msg : String)
  | valueError (msg : String)
  | indexError (msg : String)
  deriving DecidableEq

/-- Split a character list at every occurrence of `sep`, modelling Python
`str.split(sep)` for a one-character separator. -/
def splitOnChar (sep : Char) : List Char → List (List Char)
  | [] => [[]]
  | c :: cs =>
    match splitOnChar sep cs with
    | [] => [[]]
    | g :: gs => if c = sep then [] :: g :: gs else (c :: g) :: gs

/-- Python `sep.join(parts)`. -/
def joinWith (sep : String) : List String → String
  | [] => ""
  | [x] => x
  | x :: y :: xs => x ++ sep ++ joinWith sep (y :: xs)

/-- Python `s.split(",")`. -/
def pySplitComma (s : String) : List String :=
  (splitOnChar ',' s.data).map (fun l => String.mk l)

/-- Characters removed by Python `str.strip()`. -/
def isPySpace (c : Char) : Bool :=
  c = ' ' || c = '\t' || c = '\n' || c = '\r' || c = '\x0b' || c = '\x0c'

/-- Python `s.strip()`. -/
def pyStrip (s : String) : String :=
  String.mk (((s.data.dropWhile isPySpace).reverse.dropWhile isPySpace).reverse)

/-- Python `os.path.join`, restricted to relative second components. -/
def pathJoin (a b : String) : String :=
  if a = "" then b else a ++ "/" ++ b

/-- Python `os.path.basename`: the final slash-separated component. -/
def basenameOf (s : String) : String :=
  String.mk ((splitOnChar '/' s.data).getLastD [])

/-- Python `os.path.dirname`: everything before the final slash (empty for a
bare file name). -/
def dirnameOf (s : String) : String :=
  joinWith "/" (((splitOnChar '/' s.data).dropLast).map (fun l => String.mk l))

/-- Report header built by `workflow` in `peakdet/cli/run.py` line 177:
`"filename," + ",".join(measurements)`. -/
def mkHead (measurements : List String) : String :=
  "filename," ++ joinWith "," measurements

/-- Measurement names recovered from an existing report header, run.py line
191: `[f.strip() for f in eheader.split(",")[1:]]`. -/
def parseHeaderMeasurements (eheader : String) : List String :=
  ((pySplitComma eheader).drop 1).map pyStrip

/-- Outcome of the header-reconciliation step of `workflow` (run.py lines
176-195): whether `warnings.warn` fired, the measurement list used for all
subsequent rows, and the header string passed to the first `dest.write`. -/
structure HeaderResolution where
  warned : Bool
  measurements : List String
  headWritten : String
  deriving DecidableEq

/-- Header reconciliation of `workflow` (run.py lines 176-195).  When the
output file exists, its first line `eheader` is compared with the freshly
built header; on mismatch a warning is issued and the measurement list is
re-derived from `eheader`; in either case `head` is reset to the empty string
so no new header is written.  When the output file does not exist, the fresh
header plus a newline is written. -/
def resolveHeader (outputExists : Bool) (eheader : String) (requested : List String) : HeaderResolution :=
  if outputExists then
    if eheader = mkHead requested then
      ⟨false, requested, ""⟩
    else
      ⟨true, parseHeaderMeasurements eheader, ""⟩
  else
    ⟨false, requested, mkHead requested ++ "\n"⟩

/-- Python value produced by `getattr(hrv, attr, "")` in run.py line 238: a
float (modelled as a rational) when the attribute exists, the string default
otherwise. -/
inductive PyVal
  | num (q : ℚ)
  | str (s : String)
  deriving DecidableEq

/-- Floor of a rational as an integer, via flooring integer division. -/
def ratFloorInt (q : ℚ) : ℤ := Int.fdiv q.num q.den

/-- Round to the nearest integer (ties upward; the tie convention is
immaterial to every claim below). -/
def roundHalfUp (q : ℚ) : ℤ := ratFloorInt (q + 1/2)

/-- Decimal rendering of a natural number, zero-padded to five digits. -/
def natPad5 (n : ℕ) : String :=
  let s := toString n
  String.mk (List.replicate (5 - s.length) '0') ++ s

/-- Fixed-point rendering of a rational with exactly five digits after the
decimal point, modelling Python float formatting with format spec `.5f`. -/
def formatFixed5 (q : ℚ) : String :=
  let n := roundHalfUp (q * 100000)
  (if n < 0 then "-" else "") ++ toString (n.natAbs / 100000) ++ "." ++ natPad5 (n.natAbs % 100000)

/-- Python string formatting with format spec `.5f`: renders a float with five
decimals; applying the float format code to a string value raises
`ValueError`, exactly as CPython does. -/
def pyFormat5f : PyVal → Except PdError String
  | PyVal.num q => Except.ok (formatFixed5 q)
  | PyVal.str _ => Except.error (PdError.valueError "Unknown format code f for object of type str")

/-- Python `getattr(hrv, attr, "")` (run.py line 238); the HRV object is
modelled as a partial map from attribute names to float values. -/
def getattrOr (hrv : String → Option ℚ) (attr : String) : PyVal :=
  match hrv attr with
  | some v => PyVal.num v
  | none => PyVal.str ""

/-- The list comprehension of run.py line 238, one formatted field per
requested measurement; the first raising field aborts the whole row. -/
def buildOutputs (hrv : String → Option ℚ) : List String → Except PdError (List String)
  | [] => Except.ok []
  | attr :: rest => do
    let s ← pyFormat5f (getattrOr hrv attr)
    let others ← buildOutputs hrv rest
    Except.ok (s :: others)

/-- A single channel record (`peakdet.Physio`); its internals live outside
this repository and are irrelevant to the workflow-driver claims, so it is an
opaque token. -/
structure Physio where
  tag : Nat
  deriving DecidableEq

/-- Observable events of one run of `workflow` (run.py lines 197-241): calls
to the external collaborators, and operations on the report file handle. -/
inductive Ev
  | loadHistE (f : String)
  | loadE (f : String)
  | filterE (f : String)
  | detectE (f : String)
  | editE (f : String)
  | saveHistE (f : String)
  | hrvE (f : String)
  | writeE (s : String)
  | flushE
  | closeE
  deriving DecidableEq

/-- External collaborators called by `workflow`; none of their sources are
part of this repository, so they are oracle parameters that may raise. -/
structure Oracle where
  historyExists : String → Bool
  loadHistoryFn : String → Except PdError Physio
  loadFn : String → Except PdError Physio
  filterFn : Physio → Except PdError Physio
  peakfindFn : Physio → Except PdError Physio
  editFn : Physio → Except PdError Physio
  hrvFn : Physio → Except PdError (String → Option ℚ)

/-- Deterministic per-file history-artifact name (run.py lines 205-207):
`os.path.join(os.path.dirname(fname), "." + os.path.basename(fname) + ".json")`. -/
def histArtifactName (fname : String) : String :=
  pathJoin (dirnameOf fname) ("." ++ basenameOf fname ++ ".json")

/-- Data acquisition for one file (run.py lines 209-224): when the history
artifact exists it is loaded and the loader, filter and peak detector are not
called; otherwise load, filter and detect run in sequence, each able to
raise. -/
def acquireData (O : Oracle) (fname : String) : List Ev × Except PdError Physio :=
  if O.historyExists (histArtifactName fname) then
    ([Ev.loadHistE fname], O.loadHistoryFn (histArtifactName fname))
  else
    match O.loadFn fname with
    | Except.error e => ([Ev.loadE fname], Except.error e)
    | Except.ok d =>
      match O.filterFn d with
      | Except.error e => ([Ev.loadE fname, Ev.filterE fname], Except.error e)
      | Except.ok d2 =>
        match O.peakfindFn d2 with
        | Except.error e => ([Ev.loadE fname, Ev.filterE fname, Ev.detectE fname], Except.error e)
        | Except.ok d3 => ([Ev.loadE fname, Ev.filterE fname, Ev.detectE fname], Except.ok d3)

/-- Optional interactive edit (run.py lines 229-230), performed even when the
record came from the history artifact. -/
def editPhase (O : Oracle) (noedit : Bool) (fname : String) (d : Physio) : List Ev × Except PdError Physio :=
  if noedit then ([], Except.ok d) else ([Ev.editE fname], O.editFn d)

/-- Optional history save (run.py lines 233-234). -/
def savePhase (savehistory : Bool) (fname : String) : List Ev :=
  if savehistory then [Ev.saveHistE fname] else []

/-- HRV computation and report-row rendering (run.py lines 237-238 and the
row string of line 241): `peakdet.HRV(data)` followed by the measurement
comprehension and `",".join([fname] + outputs)`. -/
def hrvPhase (O : Oracle) (fname : String) (ms : List String) (d : Physio) : List Ev × Except PdError String :=
  ([Ev.hrvE fname],
    do
      let h ← O.hrvFn d
      let outs ← buildOutputs h ms
      Except.ok (joinWith "," (fname :: outs)))

/-- Loop body of `workflow` for one input file (run.py lines 200-241, minus
the report write, which the loop itself performs): history check,
acquisition, optional edit, optional history save, HRV and row rendering.
There is no exception handler anywhere in this body. -/
def processOneFile (O : Oracle) (noedit savehistory : Bool) (ms : List String) (fname : String) : List Ev × Except PdError String :=
  match acquireData O fname with
  | (evs1, Except.error e) => (evs1, Except.error e)
  | (evs1, Except.ok d) =>
    match editPhase O noedit fname d with
    | (evs2, Except.error e) => (evs1 ++ evs2, Except.error e)
    | (evs2, Except.ok d2) =>
      let evs3 := savePhase savehistory fname
      match hrvPhase O fname ms d2 with
      | (evs4, Except.error e) => (evs1 ++ evs2 ++ evs3 ++ evs4, Except.error e)
      | (evs4, Except.ok row) => (evs1 ++ evs2 ++ evs3 ++ evs4, Except.ok row)

/-- The `for fname in files` loop of `workflow` (run.py lines 200-241).  Each
completed file appends its report row at once (`dest.write(row + newline)`);
an exception raised inside the body propagates, so the remaining files are
never reached.  Returns the emitted events and the terminating error, if
any. -/
def workflowLoop (O : Oracle) (noedit savehistory : Bool) (ms : List String) : List String → List Ev × Option PdError
  | [] => ([], none)
  | f :: fs =>
    match processOneFile O noedit savehistory ms f with
    | (evs, Except.error e) => (evs, some e)
    | (evs, Except.ok row) =>
      let rest := workflowLoop O noedit savehistory ms fs
      (evs ++ [Ev.writeE (row ++ "\n")] ++ rest.fst, rest.snd)

/-- The report-producing part of `workflow` (run.py lines 176-241): header
reconciliation, opening the report in append mode, writing the (possibly
empty) header, the per-file loop, and the implicit close at the end of the
with-block, which also runs when the loop raised. -/
def workflowRun (O : Oracle) (noedit savehistory : Bool) (existingFirstLine : Option String) (requested : List String) (files : List String) : List Ev × Option PdError :=
  let hr := resolveHeader existingFirstLine.isSome (existingFirstLine.getD "") requested
  let res := workflowLoop O noedit savehistory hr.measurements files
  (Ev.writeE hr.headWritten :: (res.fst ++ [Ev.closeE]), res.snd)

/-- Buffered file-handle state: `writeE` appends to the user-space buffer;
only `flushE` and `closeE` move buffered strings to the file on disk. -/
structure HandleState where
  buf : List String
  disk : List String
  deriving DecidableEq

/-- One event acting on the buffered handle. -/
def applyEv (st : HandleState) : Ev → HandleState
  | Ev.writeE s => ⟨st.buf ++ [s], st.disk⟩
  | Ev.flushE => ⟨[], st.disk ++ st.buf⟩
  | Ev.closeE => ⟨[], st.disk ++ st.buf⟩
  | _ => st

/-- Replay a trace against an initially empty handle; truncating the trace
models a hard interruption before the remaining events happen. -/
def runHandle (evs : List Ev) : HandleState :=
  evs.foldl applyEv ⟨[], []⟩

/-- Result of the column-selection logic of the `peakdet` function
(workflow.py lines 163-181). -/
inductive ColSel
  | keepIdx (i : Int)
  | dropPair (chtime : Nat) (chtrig : Option Int)
  deriving DecidableEq

/-- Outcome of column selection: whether the automatic search `find_chtrig`
was invoked, and the selection performed or the exception raised. -/
structure ColSelOut where
  ranFindChtrig : Bool
  result : Except PdError ColSel

/-- Column-selection logic of `peakdet` (workflow.py lines 163-181), with the
Python scoping made explicit.  `find_chtrig` lives in `peakdet/utils.py`,
outside this repository, and is passed in as `fct`.  The local `chtime` is
assigned only inside the `chtrig != 0` branch (line 169); the automatic
branch taken when `chtrig == 0` therefore refers to an unbound local on both
of its sub-paths (lines 176 and 181) and raises a `NameError` after the
search ran.  In the explicit branch the drop indexes the columns with the
tuple `(chtime, chtrig)`, whatever `chtrig` is — including `None`. -/
def selectColumns (fct : List String → Option Nat) (cols : List String) (physIdx : Option Int) (chtrig : Option Int) : ColSelOut :=
  match physIdx with
  | some i => ⟨false, Except.ok (ColSel.keepIdx i)⟩
  | none =>
    if chtrig ≠ some 0 then
      match cols.findIdx? (fun c => c == "time") with
      | none => ⟨false, Except.error (PdError.keyError "time")⟩
      | some chtime => ⟨false, Except.ok (ColSel.dropPair chtime chtrig)⟩
    else
      match fct cols with
      | some _ => ⟨true, Except.error (PdError.nameError "chtime")⟩
      | none => ⟨true, Except.error (PdError.nameError "chtime")⟩

/-- Sampling-frequency field of the sidecar JSON (workflow.py lines 186-189):
either one scalar for all columns or a per-column list. -/
inductive SFreq
  | scalar (v : ℚ)
  | listed (vs : List ℚ)

/-- Per-column sampling-frequency lookup (workflow.py lines 186-189). -/
def fsAt (sf : SFreq) (idx : Nat) : Except PdError ℚ :=
  match sf with
  | SFreq.scalar v => Except.ok v
  | SFreq.listed vs =>
    match vs.get? idx with
    | some v => Except.ok v
    | none => Except.error (PdError.indexError "list index out of range")

/-- Python `str(outfile + suffix)` (workflow.py lines 199, 203 and 205): when
`outfile` is the default `None`, the concatenation of `None` with a string
raises `TypeError` before any save function is called. -/
def mkSaveName (outfile : Option String) (suffix : String) : Except PdError String :=
  match outfile with
  | none => Except.error (PdError.typeError "unsupported operand types for add: NoneType and str")
  | some s => Except.ok (s ++ suffix)

/-- Observable per-column events of the `peakdet` loop (workflow.py lines
184-206). -/
inductive PEv
  | processSignals (col : String)
  | manualPeaksE (col : String) (path : String)
  | savePhysioE (col : String) (path : String)
  | saveHistoryE (col : String) (path : String)
  deriving DecidableEq

/-- Body of the `for idx, col in enumerate(data.columns)` loop of `peakdet`
(workflow.py lines 184-206): sampling-frequency lookup, `Physio` creation,
`process_signals(physio_obj, config[col])` — a `KeyError` when the channel
has no config entry, since the announced argument check of line 147 is an
unimplemented TODO — then either the manual-peaks path or the save-outputs
path, both of which build their output names from `outfile`. -/
def peakdetColumn (config : List (String × String)) (sf : SFreq) (outdir : String) (outfile : Option String) (manual : Bool) (idx : Nat) (col : String) : List PEv × Option PdError :=
  match fsAt sf idx with
  | Except.error e => ([], some e)
  | Except.ok _ =>
    match config.lookup col with
    | none => ([], some (PdError.keyError col))
    | some _ =>
      if manual then
        match mkSaveName outfile ("_" ++ col ++ ".phys") with
        | Except.error e => ([PEv.processSignals col], some e)
        | Except.ok nm => ([PEv.processSignals col, PEv.manualPeaksE col (pathJoin outdir nm)], none)
      else
        match mkSaveName outfile ("_" ++ col) with
        | Except.error e => ([PEv.processSignals col], some e)
        | Except.ok n1 =>
          match mkSaveName outfile ("_history_" ++ col) with
          | Except.error e => ([PEv.processSignals col, PEv.savePhysioE col (pathJoin outdir n1)], some e)
          | Except.ok n2 =>
            ([PEv.processSignals col, PEv.savePhysioE col (pathJoin outdir n1),
              PEv.saveHistoryE col (pathJoin outdir n2)], none)

/-- The column loop of `peakdet` (workflow.py lines 184-206); like the file
loop of run.py it has no exception handler, so the first raising column stops
the loop — after all previous columns were fully processed and saved. -/
def peakdetLoop (config : List (String × String)) (sf : SFreq) (outdir : String) (outfile : Option String) (manual : Bool) : Nat → List String → List PEv × Option PdError
  | _, [] => ([], none)
  | idx, col :: rest =>
    match peakdetColumn config sf outdir outfile manual idx col with
    | (evs, some e) => (evs, some e)
    | (evs, none) =>
      let r := peakdetLoop config sf outdir outfile manual (idx + 1) rest
      (evs ++ r.fst, r.snd)

/-- Oracle for concrete runs: every history artifact exists, every
collaborator succeeds, and the HRV object has no attributes. -/
def oracleHist : Oracle :=
  ⟨fun _ => true, fun _ => Except.ok ⟨0⟩, fun _ => Except.ok ⟨0⟩,
   fun d => Except.ok d, fun d => Except.ok d, fun d => Except.ok d,
   fun _ => Except.ok (fun _ => none)⟩

/-- Oracle for concrete runs: no history artifacts; the loader raises an
IOError on `bad.tsv` and succeeds on every other file. -/
def oracleBadFile : Oracle :=
  ⟨fun _ => false, fun _ => Except.ok ⟨0⟩,
   fun f => if f = "bad.tsv" then Except.error (PdError.ioError "could not read bad.tsv") else Except.ok ⟨1⟩,
   fun d => Except.ok d, fun d => Except.ok d, fun d => Except.ok d,
   fun _ => Except.ok (fun _ => none)⟩

/-- Appending a newline changes a string (used for the header comparison of
run.py line 184, where the line read back carries its newline). -/
theorem append_newline_ne (s : String) : s ++ "\n" ≠ s := by
  intro h
  have hl := congrArg String.length h
  rw [String.length_append] at hl
  have h1 : ("\n" : String).length = 1 := rfl
  omega

/-- C4: when the output report already exists and its header names a
different metric set than the requested measurements, the workflow warns,
re-derives the measurement list from the pre-existing header (keeping its
order), and writes no new header.  The hypothesis `henc` states that the
requested names round-trip through the header encoding (true of every real
metric list: names contain no comma and no surrounding whitespace). -/
theorem resolveHeader_mismatch_keeps_existing (eheader : String) (requested : List String)
    (hset : parseHeaderMeasurements eheader ≠ requested)
    (henc : parseHeaderMeasurements (mkHead requested) = requested) :
    resolveHeader true eheader requested = ⟨true, parseHeaderMeasurements eheader, ""⟩ := by
  have hne : eheader ≠ mkHead requested := by
    intro h
    exact hset (by rw [h, henc])
  simp [resolveHeader, hne]

/-- Witness for C4 at a concrete mismatched header. -/
theorem resolveHeader_mismatch_keeps_existing_witness :
    resolveHeader true "filename,avgnn\n" ["sdnn"] = ⟨true, ["avgnn"], ""⟩ := by
  have h := resolveHeader_mismatch_keeps_existing "filename,avgnn\n" ["sdnn"] (by decide) (by decide)
  rw [h]
  decide

/-- C5: even when the existing report header names exactly the requested
metric set in the requested order, the mismatch warning still fires and the
measurements are re-derived from the header line, because the line read by
`readlines()[0]` carries its trailing newline while the freshly built header
string does not (run.py lines 177-191). -/
theorem resolveHeader_trailing_newline_warns (requested : List String)
    (h : parseHeaderMeasurements (mkHead requested ++ "\n") = requested) :
    resolveHeader true (mkHead requested ++ "\n") requested = ⟨true, requested, ""⟩ := by
  have hne : mkHead requested ++ "\n" ≠ mkHead requested := append_newline_ne _
  simp [resolveHeader, hne, h]

/-- Witness for C5: a header naming exactly the requested set still warns. -/
theorem resolveHeader_trailing_newline_warns_witness :
    resolveHeader true (mkHead ["avgnn"] ++ "\n") ["avgnn"] = ⟨true, ["avgnn"], ""⟩ :=
  resolveHeader_trailing_newline_warns ["avgnn"] (by decide)

/-- C3: the comprehension of run.py line 238 formats every requested
measurement with format spec `.5f`; a measurement absent from the HRV object
makes `getattr(hrv, attr, "")` return the empty-string default, and feeding
that string to the float format code raises `ValueError` instead of
rendering an empty field.  This evaluates the embedded code at such a
failing input. -/
theorem buildOutputs_missing_attr_raises :
    buildOutputs (fun _ => none) ["fake_metric"] =
      Except.error (PdError.valueError "Unknown format code f for object of type str") := rfl

/-- C7: in the automatic trigger-detection path of the column-selection logic
(`phys_idx is None` and `chtrig == 0`, workflow.py lines 171-181) the local
`chtime` is referenced before assignment, so the branch raises a `NameError`
instead of dropping the time and trigger columns — whatever the search
returns. -/
theorem selectColumns_auto_branch_nameError (fct : List String → Option Nat) (cols : List String) :
    selectColumns fct cols none (some 0) = ⟨true, Except.error (PdError.nameError "chtime")⟩ := by
  cases h : fct cols <;> simp [selectColumns, h]

/-- C9: the automatic search `find_chtrig` runs if and only if `chtrig` equals
`0`; with `chtrig = None` — the documented request for automatic search and
the default of `peakdet` — the explicit-drop branch is taken instead and the
columns are indexed with the `None` trigger value (workflow.py lines
164-181). -/
theorem selectColumns_chtrig_semantics (fct : List String → Option Nat) (cols : List String) :
    (∀ chtrig : Option Int, (selectColumns fct cols none chtrig).ranFindChtrig = true ↔ chtrig = some 0) ∧
    (∀ t : Nat, cols.findIdx? (fun c => c == "time") = some t →
      selectColumns fct cols none none = ⟨false, Except.ok (ColSel.dropPair t none)⟩) := by
  constructor
  · intro chtrig
    by_cases h : chtrig = some 0
    · subst h
      cases hf : fct cols <;> simp [selectColumns, hf]
    · cases hT : cols.findIdx? (fun c => c == "time") <;> simp [selectColumns, h, hT]
  · intro t ht
    simp [selectColumns, ht]

/-- Witness for C9 on concrete Phys2Bids-style columns. -/
theorem selectColumns_chtrig_semantics_witness :
    selectColumns (fun _ => none) ["time", "trigger", "cardiac"] none none =
      ⟨false, Except.ok (ColSel.dropPair 0 none)⟩ ∧
    ((selectColumns (fun _ => none) ["time", "trigger", "cardiac"] none (some 0)).ranFindChtrig = true ↔
      (some 0 : Option Int) = some 0) := by
  have h := selectColumns_chtrig_semantics (fun _ => none) ["time", "trigger", "cardiac"]
  exact ⟨h.2 0 (by decide), h.1 (some 0)⟩

/-- C6: a per-channel config entry missing for the second channel is only
detected when the loop reaches that channel: the first channel has already
been fully processed and its output saved, contradicting fail-fast.  This
evaluates the embedded `peakdet` column loop at such an input. -/
theorem peakdetLoop_config_error_after_first_column :
    peakdetLoop [("cardiac", "steps")] (SFreq.scalar 1) "out" (some "sub") true 0 ["cardiac", "resp"] =
      ([PEv.processSignals "cardiac", PEv.manualPeaksE "cardiac" "out/sub_cardiac.phys"],
        some (PdError.keyError "resp")) := rfl

/-- C10: with `outfile` left at its default `None`, the first processed column
reaches the output-saving step and raises `TypeError` from `outfile + str`,
for either value of `manual_detector`; no per-column output event is ever
emitted (workflow.py lines 195-206). -/
theorem peakdetLoop_outfile_none_typeError (config : List (String × String)) (sf : SFreq)
    (outdir : String) (manual : Bool) (idx : Nat) (col : String) (rest : List String)
    (steps : String) (v : ℚ)
    (hc : config.lookup col = some steps) (hf : fsAt sf idx = Except.ok v) :
    peakdetLoop config sf outdir none manual idx (col :: rest) =
      ([PEv.processSignals col],
        some (PdError.typeError "unsupported operand types for add: NoneType and str")) := by
  cases manual <;> simp [peakdetLoop, peakdetColumn, hc, hf, mkSaveName]

/-- Witness for C10 at a concrete single-column run. -/
theorem peakdetLoop_outfile_none_typeError_witness :
    peakdetLoop [("cardiac", "steps")] (SFreq.scalar 1) "out" none true 0 ["cardiac"] =
      ([PEv.processSignals "cardiac"],
        some (PdError.typeError "unsupported operand types for add: NoneType and str")) :=
  peakdetLoop_outfile_none_typeError _ _ _ _ _ _ _ "steps" 1 rfl rfl

/-- Events of the edit phase are edit events. -/
theorem editPhase_sub (O : Oracle) (ne : Bool) (f : String) (d : Physio) :
    ∀ e ∈ (editPhase O ne f d).fst, e = Ev.editE f := by
  cases ne <;> simp [editPhase]

/-- Events of the save phase are history-save events. -/
theorem savePhase_sub (sh : Bool) (f : String) : ∀ e ∈ savePhase sh f, e = Ev.saveHistE f := by
  cases sh <;> simp [savePhase]

/-- The HRV phase emits exactly the HRV event. -/
theorem hrvPhase_fst (O : Oracle) (f : String) (ms : List String) (d : Physio) :
    (hrvPhase O f ms d).fst = [Ev.hrvE f] := rfl

/-- When the history artifact exists, acquisition is exactly the history
load. -/
theorem acquireData_pos (O : Oracle) (f : String)
    (h : O.historyExists (histArtifactName f) = true) :
    acquireData O f = ([Ev.loadHistE f], O.loadHistoryFn (histArtifactName f)) := by
  unfold acquireData
  rw [if_pos h]

/-- When the history artifact is absent, the loader is invoked and the
history store is not. -/
theorem acquireData_neg (O : Oracle) (f : String)
    (h : O.historyExists (histArtifactName f) = false) :
    Ev.loadE f ∈ (acquireData O f).fst ∧ Ev.loadHistE f ∉ (acquireData O f).fst := by
  unfold acquireData
  rw [if_neg (by simp [h])]
  split
  · simp
  · split
    · simp
    · split <;> simp

/-- The per-file event list starts with the acquisition events; everything
after them is an edit, history-save or HRV event. -/
theorem processOneFile_fst_decomp (O : Oracle) (ne sh : Bool) (ms : List String) (f : String) :
    ∃ tail, (processOneFile O ne sh ms f).fst = (acquireData O f).fst ++ tail ∧
      ∀ e ∈ tail, e = Ev.editE f ∨ e = Ev.saveHistE f ∨ e = Ev.hrvE f := by
  unfold processOneFile
  split
  next evs1 e heq => exact ⟨[], by simp [heq], by simp⟩
  next evs1 d heq =>
    split
    next evs2 e2 hE =>
      refine ⟨evs2, by simp [heq], fun x hx => Or.inl ?_⟩
      have h2 := editPhase_sub O ne f d x
      rw [hE] at h2
      exact h2 hx
    next evs2 d2 hE =>
      have hevs2 : ∀ x ∈ evs2, x = Ev.editE f := by
        intro x hx
        have h2 := editPhase_sub O ne f d x
        rw [hE] at h2
        exact h2 hx
      have hmem : ∀ evs4, evs4 = [Ev.hrvE f] →
          ∀ x ∈ evs2 ++ savePhase sh f ++ evs4,
            x = Ev.editE f ∨ x = Ev.saveHistE f ∨ x = Ev.hrvE f := by
        intro evs4 h4 x hx
        rcases List.mem_append.mp hx with hx1 | hx1
        · rcases List.mem_append.mp hx1 with hx2 | hx2
          · exact Or.inl (hevs2 x hx2)
          · exact Or.inr (Or.inl (savePhase_sub sh f x hx2))
        · rw [h4] at hx1
          exact Or.inr (Or.inr (List.mem_singleton.mp hx1))
      split
      next evs4 e4 hH =>
        refine ⟨evs2 ++ savePhase sh f ++ evs4, by simp [heq], hmem evs4 ?_⟩
        have hh := hrvPhase_fst O f ms d2
        rw [hH] at hh
        exact hh
      next evs4 row hH =>
        refine ⟨evs2 ++ savePhase sh f ++ evs4, by simp [heq], hmem evs4 ?_⟩
        have hh := hrvPhase_fst O f ms d2
        rw [hH] at hh
        exact hh

/-- Every event of the acquisition phase concerns loading, filtering or
detection of the same file. -/
theorem acquireData_events (O : Oracle) (f : String) :
    ∀ e ∈ (acquireData O f).fst,
      e = Ev.loadHistE f ∨ e = Ev.loadE f ∨ e = Ev.filterE f ∨ e = Ev.detectE f := by
  intro e he
  unfold acquireData at he
  by_cases h : O.historyExists (histArtifactName f) = true
  · rw [if_pos h] at he
    simp at he
    simp [he]
  · rw [if_neg h] at he
    rcases hL : O.loadFn f with er | d
    all_goals rw [hL] at he
    all_goals simp only [] at he
    · simp at he
      simp [he]
    · rcases hF : O.filterFn d with er | d2
      all_goals rw [hF] at he
      all_goals simp only [] at he
      · simp at he
        rcases he with he | he <;> simp [he]
      · rcases hP : O.peakfindFn d2 with er | d3
        all_goals rw [hP] at he
        all_goals simp at he
        all_goals rcases he with he | he | he <;> simp [he]

/-- Every event of the per-file body concerns the same file and one of the
seven collaborator calls — in particular the body never flushes nor writes
the report handle. -/
theorem processOneFile_events (O : Oracle) (ne sh : Bool) (ms : List String) (f : String) :
    ∀ e ∈ (processOneFile O ne sh ms f).fst,
      e = Ev.loadHistE f ∨ e = Ev.loadE f ∨ e = Ev.filterE f ∨ e = Ev.detectE f ∨
      e = Ev.editE f ∨ e = Ev.saveHistE f ∨ e = Ev.hrvE f := by
  obtain ⟨tail, heq, htail⟩ := processOneFile_fst_decomp O ne sh ms f
  intro e he
  rw [heq] at he
  rcases List.mem_append.mp he with h | h
  · rcases acquireData_events O f e h with h1 | h1 | h1 | h1 <;> tauto
  · rcases htail e h with h1 | h1 | h1 <;> tauto

/-- C1: when the deterministically-named per-file history artifact exists, the
per-file body loads the record from it and never invokes the loader, the
filter or the peak detector for that file; when the artifact is absent the
loader is invoked and the history store is not, so filtering and detection
run only in that case (run.py lines 204-224). -/
theorem processOneFile_history_short_circuit (O : Oracle) (ne sh : Bool) (ms : List String) (f : String) :
    (O.historyExists (histArtifactName f) = true →
      Ev.loadHistE f ∈ (processOneFile O ne sh ms f).fst ∧
      Ev.loadE f ∉ (processOneFile O ne sh ms f).fst ∧
      Ev.filterE f ∉ (processOneFile O ne sh ms f).fst ∧
      Ev.detectE f ∉ (processOneFile O ne sh ms f).fst) ∧
    (O.historyExists (histArtifactName f) = false →
      Ev.loadE f ∈ (processOneFile O ne sh ms f).fst ∧
      Ev.loadHistE f ∉ (processOneFile O ne sh ms f).fst) := by
  obtain ⟨tail, heq, htail⟩ := processOneFile_fst_decomp O ne sh ms f
  constructor
  · intro h
    have hA := acquireData_pos O f h
    rw [hA] at heq
    refine ⟨?_, ?_, ?_, ?_⟩
    · rw [heq]
      exact List.mem_append_left _ (by simp)
    all_goals
      rw [heq]
      simp only [List.mem_append, List.mem_singleton]
      rintro (hmem | hmem)
      · cases hmem
      · rcases htail _ hmem with h1 | h1 | h1 <;> cases h1
  · intro h
    obtain ⟨hin, hnot⟩ := acquireData_neg O f h
    constructor
    · rw [heq]
      exact List.mem_append_left _ hin
    · rw [heq]
      intro hmem
      rcases List.mem_append.mp hmem with hmem | hmem
      · exact hnot hmem
      · rcases htail _ hmem with h1 | h1 | h1 <;> cases h1

/-- Witness for C1: with every artifact present, the history load happens and
the filter is never invoked. -/
theorem processOneFile_history_short_circuit_witness :
    Ev.loadHistE "a.tsv" ∈ (processOneFile oracleHist false true [] "a.tsv").fst ∧
    Ev.filterE "a.tsv" ∉ (processOneFile oracleHist false true [] "a.tsv").fst := by
  have h := (processOneFile_history_short_circuit oracleHist false true [] "a.tsv").1 rfl
  exact ⟨h.1, h.2.2.1⟩

/-- C2 amended: the file loop of `workflow` has no exception handler, so an
error raised while processing one file terminates the whole batch — the
remaining files are neither processed nor reported (run.py lines 197-241). -/
theorem workflowLoop_error_aborts (O : Oracle) (ne sh : Bool) (ms : List String)
    (f : String) (fs : List String) (evs : List Ev) (e : PdError)
    (h : processOneFile O ne sh ms f = (evs, Except.error e)) :
    workflowLoop O ne sh ms (f :: fs) = (evs, some e) := by
  simp [workflowLoop, h]

/-- Witness for the amended C2 at a concrete two-file batch. -/
theorem workflowLoop_error_aborts_witness :
    workflowLoop oracleBadFile false true [] ["bad.tsv", "good.tsv"] =
      ([Ev.loadE "bad.tsv"], some (PdError.ioError "could not read bad.tsv")) :=
  workflowLoop_error_aborts oracleBadFile false true [] "bad.tsv" ["good.tsv"]
    [Ev.loadE "bad.tsv"] (PdError.ioError "could not read bad.tsv") rfl

/-- C2 counterexample: an unreadable first file aborts the batch — the loop
result shows the IOError propagating and no event at all for `good.tsv`,
whose row is never produced, refuting the claim that the workflow continues
with the next file. -/
theorem workflowLoop_bad_file_halts_batch :
    workflowLoop oracleBadFile false true [] ["bad.tsv", "good.tsv"] =
      ([Ev.loadE "bad.tsv"], some (PdError.ioError "could not read bad.tsv")) ∧
    Ev.loadE "good.tsv" ∉ (workflowLoop oracleBadFile false true [] ["bad.tsv", "good.tsv"]).fst := by
  refine ⟨rfl, ?_⟩
  decide

/-- C8 amended: each completed file's report row is written to the output
handle immediately — before any event of a later file — but the loop never
flushes the handle; buffered rows reach the file only at the final close
(run.py lines 197-241). -/
theorem workflowLoop_row_per_file_no_flush (O : Oracle) (ne sh : Bool) (ms : List String) :
    (∀ files : List String, Ev.flushE ∉ (workflowLoop O ne sh ms files).fst) ∧
    (∀ (f : String) (fs : List String) (evs : List Ev) (row : String),
      processOneFile O ne sh ms f = (evs, Except.ok row) →
      (workflowLoop O ne sh ms (f :: fs)).fst =
        evs ++ Ev.writeE (row ++ "\n") :: (workflowLoop O ne sh ms fs).fst) := by
  have hfl : ∀ f, Ev.flushE ∉ (processOneFile O ne sh ms f).fst := by
    intro f hmem
    rcases processOneFile_events O ne sh ms f _ hmem with h | h | h | h | h | h | h <;> cases h
  constructor
  · intro files
    induction files with
    | nil => simp [workflowLoop]
    | cons f fs ih =>
      rcases hP : processOneFile O ne sh ms f with ⟨evs, r⟩
      have hfst := hfl f
      rw [hP] at hfst
      rcases r with e | row
      · simp only [workflowLoop, hP]
        simpa using hfst
      · simp only [workflowLoop, hP]
        intro hmem
        simp only [List.append_assoc, List.singleton_append, List.mem_append,
          List.mem_cons] at hmem
        rcases hmem with hm | hm | hm
        · exact hfst hm
        · cases hm
        · exact ih hm
  · intro f fs evs row hP
    simp [workflowLoop, hP]

/-- Witness for the amended C8 on a concrete one-file run. -/
theorem workflowLoop_row_per_file_no_flush_witness :
    (workflowLoop oracleHist false true [] ["a.tsv"]).fst =
      [Ev.loadHistE "a.tsv", Ev.editE "a.tsv", Ev.saveHistE "a.tsv", Ev.hrvE "a.tsv"] ++
        Ev.writeE ("a.tsv" ++ "\n") :: (workflowLoop oracleHist false true [] []).fst ∧
    Ev.flushE ∉ (workflowLoop oracleHist false true [] ["a.tsv"]).fst := by
  have h := workflowLoop_row_per_file_no_flush oracleHist false true []
  exact ⟨h.2 "a.tsv" [] _ _ rfl, h.1 ["a.tsv"]⟩

/-- C8 counterexample: in a two-file run, truncating the event trace five
events in — an interruption while the second file is being processed — leaves
the handle with the header and the first file's completed row still sitting
in the user-space buffer and nothing on disk: the row was written but never
flushed, so the interruption loses it, refuting the claim that each row is
flushed immediately. -/
theorem runHandle_completed_row_not_on_disk :
    runHandle (((workflowRun oracleHist true false none [] ["a.tsv", "b.tsv"]).fst).take 5) =
      ⟨["filename," ++ "\n", "a.tsv" ++ "\n"], []⟩ := by
  decide
